import Mathlib

/-!
Shallow embedding of `llava/model/builder.py` (`load_pretrained_model`) from
the `clip_flant5` repository, together with proofs about its dispatch logic.

External collaborators (tokenizers, pretrained models, filesystem, hub) are
modelled by an `Env` record of abstract response functions; the function body
itself is translated statement by statement.  Python exceptions are modelled
by an explicit error type; `warnings.warn` appends to a warning list and
continues.  Machine tensors are abstracted to opaque identifiers plus a dtype
tag, since only shapes (row counts) and key names matter to the properties.
-/

set_option autoImplicit false

namespace ClipFlanT5

/-- Torch dtypes used by the builder (`torch.float16` / `torch.bfloat16`). -/
inductive Dtype where
  | float16
  | bfloat16
deriving DecidableEq, Repr

/-- An abstract tensor: an opaque identity plus the dtype it was last cast to
(`none` means "as stored in the checkpoint"). -/
structure Tensor where
  id : Nat
  dtype : Option Dtype
deriving DecidableEq, Repr

/-- `v.to(d)` on a tensor: a dtype cast (source lines 108 and 160). -/
def Tensor.cast (t : Tensor) (d : Dtype) : Tensor :=
  { id := t.id, dtype := some d }

/-- `transformers.BitsAndBytesConfig(...)` as constructed at source lines 46-51. -/
structure BitsAndBytesConfig where
  load_in_4bit : Bool
  bnb_4bit_compute_dtype : Dtype
  bnb_4bit_use_double_quant : Bool
  bnb_4bit_quant_type : String
deriving DecidableEq, Repr

/-- The `kwargs` dictionary built at source lines 38-53.  Every key the code
may set is a field; `none` means "key absent from the dict". -/
structure Kwargs where
  device_map : String
  load_in_8bit : Option Bool
  load_in_4bit : Option Bool
  quantization_config : Option BitsAndBytesConfig
  torch_dtype : Option Dtype
deriving DecidableEq, Repr

/-- Substring containment on char lists: some suffix of `l` has `pat` as a
prefix. Embeds Python's `pat in s`. -/
def charsContain : List Char → List Char → Bool
  | [], pat => pat.isEmpty
  | c :: t, pat => pat.isPrefixOf (c :: t) || charsContain t pat

/-- Python's `pat in s` for strings. -/
def strContains (s pat : String) : Bool :=
  charsContain s.data pat.data

/-- Python's `s.lower()`, as a structural map over the characters (Lean's
`String.toLower` is extensionally the same but is defined by well-founded
recursion, which blocks kernel evaluation). -/
def strLower (s : String) : String :=
  String.mk (s.data.map Char.toLower)

/-- Python's `s.startswith(p)`, structurally over the characters. -/
def strStarts (s p : String) : Bool :=
  p.data.isPrefixOf s.data

/-- Python's `s[n:]` (drop the first `n` code points), structurally. -/
def strDrop (s : String) (n : Nat) : String :=
  String.mk (s.data.drop n)

/-- `'clip-t5' in model_name.lower() or 'clip-flant5' in model_name.lower()`
(source line 39). -/
def useT5Name (model_name : String) : Bool :=
  strContains (strLower model_name) "clip-t5" || strContains (strLower model_name) "clip-flant5"

/-- `'llava' in model_name.lower()` (source line 55). -/
def isLlavaName (model_name : String) : Bool :=
  strContains (strLower model_name) "llava"

/-- `'lora' in model_name.lower()` (source lines 57, 59, 119, 121). -/
def isLoraName (model_name : String) : Bool :=
  strContains (strLower model_name) "lora"

/-- `'mpt' in model_name.lower()` (source lines 96, 111). -/
def isMptName (model_name : String) : Bool :=
  strContains (strLower model_name) "mpt"

/-- `dtype = torch.bfloat16 if use_t5 else torch.float16` (source line 40). -/
def selectDtype (model_name : String) : Dtype :=
  if useT5Name model_name then Dtype.bfloat16 else Dtype.float16

/-- Source lines 38-53: construction of the `kwargs` dict.
`if load_8bit: ... elif load_4bit: ... else: ...` -/
def buildKwargs (model_name : String) (load_8bit load_4bit : Bool) (device_map : String) : Kwargs :=
  let dtype := selectDtype model_name
  if load_8bit then
    { device_map := device_map, load_in_8bit := some true, load_in_4bit := none,
      quantization_config := none, torch_dtype := none }
  else if load_4bit then
    { device_map := device_map, load_in_8bit := none, load_in_4bit := some true,
      quantization_config := some
        { load_in_4bit := true, bnb_4bit_compute_dtype := dtype,
          bnb_4bit_use_double_quant := true, bnb_4bit_quant_type := "nf4" },
      torch_dtype := none }
  else
    { device_map := device_map, load_in_8bit := none, load_in_4bit := none,
      quantization_config := none, torch_dtype := some dtype }

/-- One entry of the `CLIP_T5_BASE_MODELS` dict (source lines 26-35). -/
structure ClipT5Entry where
  base : String
  model : String
  load_projector_only : Bool
deriving DecidableEq, Repr

/-- The fixed `CLIP_T5_BASE_MODELS` lookup table (source lines 26-35). -/
def CLIP_T5_BASE_MODELS : List (String × ClipT5Entry) :=
  [("clip-flant5-xxl",
     { base := "google/flan-t5-xxl", model := "zhiqiulin/clip-flant5-xxl",
       load_projector_only := false }),
   ("clip-flant5-xxl-stage-1",
     { base := "google/flan-t5-xxl", model := "zhiqiulin/clip-flant5-xxl-stage-1",
       load_projector_only := true }),
   ("clip-flant5-xxl-no-split-text",
     { base := "google/flan-t5-xxl", model := "zhiqiulin/clip-flant5-xxl-no-split-text",
       load_projector_only := false }),
   ("clip-flant5-xxl-stage-1-no-split-text",
     { base := "google/flan-t5-xxl", model := "zhiqiulin/clip-flant5-xxl-stage-1-no-split-text",
       load_projector_only := true }),
   ("clip-flant5-xl",
     { base := "google/flan-t5-xl", model := "zhiqiulin/clip-flant5-xl",
       load_projector_only := false }),
   ("clip-flant5-xl-stage-1",
     { base := "google/flan-t5-xl", model := "zhiqiulin/clip-flant5-xl-stage-1",
       load_projector_only := true }),
   ("clip-t5-xxl",
     { base := "t5-11b", model := "zhiqiulin/clip-t5-xxl",
       load_projector_only := false }),
   ("clip-t5-xxl-stage-1",
     { base := "t5-11b", model := "zhiqiulin/clip-t5-xxl-stage-1",
       load_projector_only := true })]

/-- Python dict access on an association list: first binding of the key. -/
def dictLookup (name : String) : List (String × ClipT5Entry) → Option ClipT5Entry
  | [] => none
  | (k, v) :: rest => if name = k then some v else dictLookup name rest

/-- Dict access `CLIP_T5_BASE_MODELS[model_name]` (success case). -/
def clipT5Find (model_name : String) : Option ClipT5Entry :=
  dictLookup model_name CLIP_T5_BASE_MODELS

/-- Python exceptions the function can raise on its own:
`NotImplementedError` (lines 122, 124, 163), `KeyError` from the dict access
at line 126, and `UnboundLocalError` from the `hf_hub_download` reference at
line 154 (the `from huggingface_hub import hf_hub_download` at line 74 makes
that name local to the whole function body, and line 74 only executes in the
LLaVA LoRA branch). -/
inductive PyError where
  | notImplemented
  | keyError (key : String)
  | unboundLocal (name : String)
deriving DecidableEq, Repr

/-- Result of a Python computation: a value or a raised exception. -/
inductive PyResult (α : Type) where
  | ok (value : α)
  | raised (e : PyError)
deriving DecidableEq, Repr

/-- Map over the value of a `PyResult`. -/
def PyResult.map {α β : Type} (f : α → β) : PyResult α → PyResult β
  | .ok v => .ok (f v)
  | .raised e => .raised e

/-- Observable side effects the function performs (prints are omitted;
warnings are recorded separately). -/
inductive Effect where
  | copyFile (src dst : String)
  | torchLoad (path : String)
  | hubDownload (repo_id filename : String) (local_dir : Option String)
deriving DecidableEq, Repr

/-- A loaded tokenizer.  `vocab` models `len(tokenizer)`. -/
structure Tokenizer where
  cls : String
  from_path : String
  use_fast : Bool
  truncation_side : Option String
  padding_side : Option String
  vocab : Nat
deriving DecidableEq, Repr

/-- A pretrained-model configuration; only the attribute the builder reads is
modelled (`hasattr(config, "max_sequence_length")` becomes an `Option`). -/
structure Config where
  max_sequence_length : Option Nat
deriving DecidableEq, Repr

/-- The model's vision-tower sub-module. -/
structure VisionTower where
  is_loaded : Bool
  image_processor : Nat
  device : Option String
  dtype : Option Dtype
deriving DecidableEq, Repr

/-- `vision_tower.load_model()` (line 177). -/
def VisionTower.load_model (vt : VisionTower) : VisionTower :=
  { vt with is_loaded := true }

/-- A loaded model.  Construction parameters are recorded as fields so that
two loads are equal exactly when performed identically; mutation statements
of the source become functional updates. -/
structure HFModel where
  cls : String
  from_path : String
  passed_kwargs : Option Kwargs
  low_cpu_mem_usage : Bool
  delay_load : Option Bool
  torch_dtype : Option Dtype
  config : Config
  embed_rows : Nat
  lm_head_out : Nat
  lm_head_in : Nat
  lm_head_rows : Nat
  vision_tower : VisionTower
  mm_projector_dtype : Option Dtype
  mm_projector_device : Option String
  state_dict_loads : List (List (String × Tensor) × Bool)
  peft_merged : Bool
  to_calls : List (Dtype × String)
deriving DecidableEq, Repr

/-- `model.load_state_dict(sd, strict=strict)` (lines 85, 109, 161): a
non-strict merge only records what was merged; shapes are unchanged. -/
def HFModel.load_state_dict (m : HFModel) (sd : List (String × Tensor)) (strict : Bool) : HFModel :=
  { m with state_dict_loads := m.state_dict_loads ++ [(sd, strict)] }

/-- `model.resize_token_embeddings(n)` (line 174): the embedding table gets
exactly `n` rows. -/
def HFModel.resize_token_embeddings (m : HFModel) (n : Nat) : HFModel :=
  { m with embed_rows := n }

/-- Responses of the external world (filesystem, hub, library loaders),
keyed by the path a load is performed from. -/
structure Env where
  autoTokenizerVocab : String → Bool → Nat
  t5TokenizerVocab : String → Nat
  configFor : String → Config
  initEmbedRows : String → Nat
  lmHeadOut : String → Nat
  lmHeadIn : String → Nat
  lmHeadRows : String → Nat
  visionTowerFor : String → VisionTower
  nonLoraLocalExists : Bool
  nonLoraLocal : List (String × Tensor)
  nonLoraHub : List (String × Tensor)
  nonLoraHubCachePath : String
  mmProjectorFor : String → List (String × Tensor)
  mptConfigFileExists : Bool
  hfHome : Option String
  homeDir : String

/-- `os.path.join` for the two-component joins the builder performs. -/
def pathJoin (a b : String) : String :=
  a ++ "/" ++ b

/-- `AutoTokenizer.from_pretrained(path, use_fast=...)`. -/
def autoTokenizerFrom (env : Env) (path : String) (use_fast : Bool) : Tokenizer :=
  { cls := "AutoTokenizer", from_path := path, use_fast := use_fast,
    truncation_side := none, padding_side := none,
    vocab := env.autoTokenizerVocab path use_fast }

/-- `T5TokenizerFast.from_pretrained(base, truncation_side='right',
padding_side="right")` (lines 134-138). -/
def t5TokenizerFrom (env : Env) (path : String) : Tokenizer :=
  { cls := "T5TokenizerFast", from_path := path, use_fast := true,
    truncation_side := some "right", padding_side := some "right",
    vocab := env.t5TokenizerVocab path }

/-- `Cls.from_pretrained(path, ...)`: builds the model record from the
environment's responses for `path`.  `cfg` is the explicit `config=` argument
when one is passed; otherwise the configuration comes with the checkpoint. -/
def fromPretrained (env : Env) (cls : String) (path : String) (cfg : Option Config)
    (kwargs : Option Kwargs) (low_cpu : Bool) (delay : Option Bool)
    (tdtype : Option Dtype) : HFModel :=
  { cls := cls, from_path := path, passed_kwargs := kwargs,
    low_cpu_mem_usage := low_cpu, delay_load := delay, torch_dtype := tdtype,
    config := match cfg with
      | some c => c
      | none => env.configFor path,
    embed_rows := env.initEmbedRows path,
    lm_head_out := env.lmHeadOut path,
    lm_head_in := env.lmHeadIn path,
    lm_head_rows := env.lmHeadRows path,
    vision_tower := env.visionTowerFor path,
    mm_projector_dtype := none, mm_projector_device := none,
    state_dict_loads := [], peft_merged := false, to_calls := [] }

/-- Key renaming pass 1 (line 82):
`{(k[11:] if k.startswith('base_model.') else k): v for k, v in d.items()}`
(`len('base_model.') = 11`). -/
def stripBaseModelKeys (d : List (String × Tensor)) : List (String × Tensor) :=
  d.map (fun kv => (if strStarts kv.1 "base_model." then strDrop kv.1 11 else kv.1, kv.2))

/-- Key renaming pass 2 (lines 83-84): if any key starts with
`'model.model.'`, strip `'model.'` (6 characters) from every key that starts
with it. -/
def stripNestedModelKeys (d : List (String × Tensor)) : List (String × Tensor) :=
  if d.any (fun kv => strStarts kv.1 "model.model.") then
    d.map (fun kv => (if strStarts kv.1 "model." then strDrop kv.1 6 else kv.1, kv.2))
  else d

/-- The full renaming applied to `non_lora_trainables` (lines 82-84). -/
def renameNonLoraTrainables (d : List (String × Tensor)) : List (String × Tensor) :=
  stripNestedModelKeys (stripBaseModelKeys d)

/-- The warning text of lines 58 and 120. -/
def loraWarningMsg : String :=
  "There is `lora` in model name but no `model_base` is provided. If you are loading a LoRA model, please provide the `model_base` argument. Detailed instruction: https://github.com/haotian-liu/LLaVA#launch-a-model-worker-lora-weights-unmerged."

/-- The arguments of `load_pretrained_model` (line 37). -/
structure Args where
  model_path : String
  model_base : Option String
  model_name : String
  load_8bit : Bool
  load_4bit : Bool
  device_map : String
  device : String
deriving DecidableEq, Repr

/-- Lines 59-92: the LLaVA LoRA merge path (`'lora' in name`, `model_base`
supplied). -/
def llavaLoraMergePath (env : Env) (a : Args) (kwargs : Kwargs) (base : String) :
    List Effect × Tokenizer × HFModel :=
  let lora_cfg_pretrained := env.configFor a.model_path
  let tokenizer := autoTokenizerFrom env base false
  let model := fromPretrained env "LlavaLlamaForCausalLM" base (some lora_cfg_pretrained)
    (some kwargs) true none none
  let token_num := model.lm_head_out
  let model :=
    if model.lm_head_rows ≠ token_num then
      { model with lm_head_rows := token_num, embed_rows := token_num }
    else model
  let loadNonLora : List Effect × List (String × Tensor) :=
    if env.nonLoraLocalExists then
      ([Effect.torchLoad (pathJoin a.model_path "non_lora_trainables.bin")], env.nonLoraLocal)
    else
      ([Effect.hubDownload a.model_path "non_lora_trainables.bin" none,
        Effect.torchLoad env.nonLoraHubCachePath], env.nonLoraHub)
  let non_lora_trainables := renameNonLoraTrainables loadNonLora.2
  let model := model.load_state_dict non_lora_trainables false
  let model := { model with peft_merged := true }
  (loadNonLora.1, tokenizer, model)

/-- Lines 107-109, shared tail of the projector-only path: load
`mm_projector.bin`, cast its tensors to `dtype`, merge non-strictly. -/
def projectorMerge (env : Env) (a : Args) (dtype : Dtype) (effs : List Effect)
    (tokenizer : Tokenizer) (model : HFModel) : List Effect × Tokenizer × HFModel :=
  let mm_projector_weights := env.mmProjectorFor a.model_path
  let mm_projector_weights := mm_projector_weights.map (fun kv => (kv.1, kv.2.cast dtype))
  let model := model.load_state_dict mm_projector_weights false
  (effs ++ [Effect.torchLoad (pathJoin a.model_path "mm_projector.bin")], tokenizer, model)

/-- Lines 93-109: the LLaVA projector-only path (`model_base` supplied, no
`'lora'` in the name). -/
def llavaProjectorPath (env : Env) (a : Args) (kwargs : Kwargs) (dtype : Dtype) (base : String) :
    List Effect × Tokenizer × HFModel :=
  if isMptName a.model_name then
    let copyEffs :=
      if env.mptConfigFileExists then []
      else [Effect.copyFile (pathJoin base "configuration_mpt.py")
              (pathJoin a.model_path "configuration_mpt.py")]
    let tokenizer := autoTokenizerFrom env base true
    let cfg_pretrained := env.configFor a.model_path
    let model := fromPretrained env "LlavaMPTForCausalLM" base (some cfg_pretrained)
      (some kwargs) true none none
    projectorMerge env a dtype copyEffs tokenizer model
  else
    let tokenizer := autoTokenizerFrom env base false
    let cfg_pretrained := env.configFor a.model_path
    let model := fromPretrained env "LlavaLlamaForCausalLM" base (some cfg_pretrained)
      (some kwargs) true none none
    projectorMerge env a dtype [] tokenizer model

/-- Lines 110-116: the self-contained LLaVA path (`model_base` absent). -/
def llavaNoBasePath (env : Env) (a : Args) (kwargs : Kwargs) :
    List Effect × Tokenizer × HFModel :=
  if isMptName a.model_name then
    ([], autoTokenizerFrom env a.model_path true,
      fromPretrained env "LlavaMPTForCausalLM" a.model_path none (some kwargs) true none none)
  else
    ([], autoTokenizerFrom env a.model_path false,
      fromPretrained env "LlavaLlamaForCausalLM" a.model_path none (some kwargs) true none none)

/-- Lines 125-161: the CLIP-T5 path with `model_base` absent.  The dict
access raises `KeyError` when the name is not in the table; the
`load_projector_only` sub-branch raises `UnboundLocalError` when it reaches
`hf_hub_download` at line 154, since that name is local to the function
(bound by the import at line 74) and is unbound on this path. -/
def clipT5NoBasePath (env : Env) (a : Args) :
    List Effect × PyResult (Tokenizer × HFModel) :=
  match clipT5Find a.model_name with
  | none => ([], .raised (.keyError a.model_name))
  | some entry =>
    let load_model_path := if entry.load_projector_only then entry.base else entry.model
    let _cfg_pretrained := env.configFor a.model_path
    let tokenizer := t5TokenizerFrom env entry.base
    let model := fromPretrained env "CLIPT5ForConditionalGeneration" load_model_path none
      none false (some false) (some Dtype.bfloat16)
    let model := { model with to_calls := model.to_calls ++ [(Dtype.bfloat16, a.device)] }
    if entry.load_projector_only then
      let _local_dir := pathJoin (match env.hfHome with | some h => h | none => env.homeDir)
        a.model_name
      ([], .raised (.unboundLocal "hf_hub_download"))
    else
      ([], .ok (tokenizer, model))

/-- The 5-tuple returned at line 188. -/
structure LoadResult where
  tokenizer : Tokenizer
  model : HFModel
  image_processor : Nat
  context_len : Nat
  use_t5 : Bool
deriving DecidableEq, Repr

/-- Lines 165-188: the finalizer run on every path that did not raise:
resize embeddings to `len(tokenizer)`, load and place the vision tower and
projector, and derive the context length. -/
def finalize (device : String) (dtype : Dtype) (use_t5 : Bool)
    (tm : Tokenizer × HFModel) : LoadResult :=
  let tokenizer := tm.1
  let model := tm.2.resize_token_embeddings tokenizer.vocab
  let vision_tower := model.vision_tower
  let vision_tower := if vision_tower.is_loaded then vision_tower else vision_tower.load_model
  let vision_tower := { vision_tower with device := some device, dtype := some dtype }
  let model := { model with
    vision_tower := vision_tower, mm_projector_dtype := some dtype,
    mm_projector_device := some device }
  let image_processor := vision_tower.image_processor
  let context_len :=
    match model.config.max_sequence_length with
    | some n => n
    | none => 2048
  { tokenizer := tokenizer, model := model, image_processor := image_processor,
    context_len := context_len, use_t5 := use_t5 }

/-- Everything observable about one invocation: emitted warnings, performed
side effects, and the returned value or raised exception. -/
structure Outcome where
  warnings : List String
  effects : List Effect
  result : PyResult LoadResult
deriving DecidableEq, Repr

/-- Lines 55-163: the family dispatcher, producing warnings, effects and
either a `(tokenizer, model)` pair for the finalizer or an exception. -/
def dispatch (env : Env) (a : Args) (kwargs : Kwargs) :
    List String × List Effect × PyResult (Tokenizer × HFModel) :=
  if isLlavaName a.model_name then
    let warns := if isLoraName a.model_name && a.model_base.isNone then [loraWarningMsg] else []
    match a.model_base with
    | some base =>
      if isLoraName a.model_name then
        let r := llavaLoraMergePath env a kwargs base
        (warns, r.1, .ok r.2)
      else
        let r := llavaProjectorPath env a kwargs (selectDtype a.model_name) base
        (warns, r.1, .ok r.2)
    | none =>
      let r := llavaNoBasePath env a kwargs
      (warns, r.1, .ok r.2)
  else if useT5Name a.model_name then
    let warns := if isLoraName a.model_name && a.model_base.isNone then [loraWarningMsg] else []
    match a.model_base with
    | some _ => (warns, [], .raised .notImplemented)
    | none =>
      let r := clipT5NoBasePath env a
      (warns, r.1, r.2)
  else
    ([], [], .raised .notImplemented)

/-- The whole of `load_pretrained_model` (lines 37-188). -/
def load_pretrained_model (env : Env) (a : Args) : Outcome :=
  let kwargs := buildKwargs a.model_name a.load_8bit a.load_4bit a.device_map
  let use_t5 := useT5Name a.model_name
  let dtype := selectDtype a.model_name
  let d := dispatch env a kwargs
  { warnings := d.1, effects := d.2.1,
    result := d.2.2.map (finalize a.device dtype use_t5) }

/-- Spec-side description of the renaming, for claim C6: the first renaming
step on one key ("the fixed prefix base_model. is stripped if present"). -/
def specStripBase (k : String) : String :=
  if strStarts k "base_model." then strDrop k 11 else k

/-- Spec-side description: "any resulting key starts with the nested
`model.model.` prefix", computed over the whole mapping. -/
def specNestedDetected (d : List (String × Tensor)) : Bool :=
  d.any (fun kv => strStarts (specStripBase kv.1) "model.model.")

/-- Spec-side description of the complete per-key renaming, parameterised by
whether the nested prefix was detected anywhere.  Keys without the prefixes
are left unchanged. -/
def specRenamedKey (nested : Bool) (k : String) : String :=
  let k1 := specStripBase k
  if nested && strStarts k1 "model." then strDrop k1 6 else k1

/-- A concrete external world for evaluating the embedding on inputs. -/
def sampleEnv : Env :=
  { autoTokenizerVocab := fun _ _ => 32000,
    t5TokenizerVocab := fun _ => 32100,
    configFor := fun _ => { max_sequence_length := none },
    initEmbedRows := fun _ => 32000,
    lmHeadOut := fun _ => 32000,
    lmHeadIn := fun _ => 4096,
    lmHeadRows := fun _ => 32000,
    visionTowerFor := fun _ =>
      { is_loaded := false, image_processor := 7, device := none, dtype := none },
    nonLoraLocalExists := true,
    nonLoraLocal := [],
    nonLoraHub := [],
    nonLoraHubCachePath := "cache/non_lora_trainables.bin",
    mmProjectorFor := fun _ => [],
    mptConfigFileExists := true,
    hfHome := none,
    homeDir := "/home/user" }

/-- A self-contained LLaVA invocation (no base model). -/
def llavaArgs : Args :=
  { model_path := "liuhaotian/llava-v1.5-7b", model_base := none,
    model_name := "llava-v1.5-7b", load_8bit := false, load_4bit := false,
    device_map := "auto", device := "cuda" }

/-- The value that invocation returns (computed by the embedding itself). -/
def llavaRun : LoadResult :=
  finalize "cuda" Dtype.float16 false
    (llavaNoBasePath sampleEnv llavaArgs (buildKwargs "llava-v1.5-7b" false false "auto")).2

/-- A second self-contained LLaVA invocation, used for the context-length
evaluation. -/
def llavaArgsB : Args :=
  { model_path := "liuhaotian/llava-v1.6-7b", model_base := none,
    model_name := "llava-v1.6-7b", load_8bit := false, load_4bit := false,
    device_map := "auto", device := "cuda" }

/-- The value the second invocation returns. -/
def llavaRunB : LoadResult :=
  finalize "cuda" Dtype.float16 false
    (llavaNoBasePath sampleEnv llavaArgsB (buildKwargs "llava-v1.6-7b" false false "auto")).2

/-- A CLIP-T5 LoRA invocation without a base model. -/
def t5LoraArgs : Args :=
  { model_path := "zhiqiulin/clip-flant5-lora", model_base := none,
    model_name := "clip-flant5-lora", load_8bit := false, load_4bit := false,
    device_map := "auto", device := "cuda" }

/-- An invocation whose name contains `lora` but matches no family. -/
def bareLoraArgs : Args :=
  { model_path := "somewhere/lora", model_base := none,
    model_name := "lora", load_8bit := false, load_4bit := false,
    device_map := "auto", device := "cuda" }

/-- A CLIP-T5 stage-1 invocation (projector-only table entry, no base). -/
def t5Stage1Args : Args :=
  { model_path := "zhiqiulin/clip-flant5-xxl-stage-1", model_base := none,
    model_name := "clip-flant5-xxl-stage-1", load_8bit := false, load_4bit := false,
    device_map := "auto", device := "cuda" }

/-- An invocation whose name matches no family at all. -/
def gpt2Args : Args :=
  { model_path := "openai-community/gpt2", model_base := none,
    model_name := "gpt2", load_8bit := false, load_4bit := false,
    device_map := "auto", device := "cuda" }

/-- A CLIP-T5 invocation that does supply a base model. -/
def t5WithBaseArgs : Args :=
  { model_path := "zhiqiulin/clip-flant5-xxl", model_base := some "google/flan-t5-xxl",
    model_name := "clip-flant5-xxl", load_8bit := false, load_4bit := false,
    device_map := "auto", device := "cuda" }

/-- A LLaVA LoRA invocation without a base model. -/
def llavaLoraNoBaseArgs : Args :=
  { model_path := "liuhaotian/llava-v1.5-7b-lora", model_base := none,
    model_name := "llava-v1.5-7b-lora", load_8bit := false, load_4bit := false,
    device_map := "auto", device := "cuda" }

/-- A CLIP-T5 full-checkpoint invocation with 8-bit requested. -/
def t5QuantArgsA : Args :=
  { model_path := "m", model_base := none, model_name := "clip-flant5-xxl",
    load_8bit := true, load_4bit := false, device_map := "auto", device := "cuda" }

/-- The same invocation with 4-bit requested and another device map. -/
def t5QuantArgsB : Args :=
  { model_path := "m", model_base := none, model_name := "clip-flant5-xxl",
    load_8bit := false, load_4bit := true, device_map := "balanced", device := "cuda" }

/- ------------------------------------------------------------------ -/
/- Helper lemmas                                                       -/
/- ------------------------------------------------------------------ -/

lemma clipT5Find_name_props {name : String} {e : ClipT5Entry}
    (h : clipT5Find name = some e) :
    useT5Name name = true ∧ isLlavaName name = false ∧ isLoraName name = false := by
  simp only [clipT5Find, CLIP_T5_BASE_MODELS, dictLookup] at h
  repeat' split at h
  all_goals first
    | (subst_vars; decide)
    | (exact Option.noConfusion h)

lemma clipT5Find_of_lora {name : String} (h : isLoraName name = true) :
    clipT5Find name = none := by
  cases hf : clipT5Find name with
  | none => rfl
  | some e =>
    rcases clipT5Find_name_props hf with ⟨-, -, hl⟩
    simp [h] at hl

lemma stripBase_any_eq (d : List (String × Tensor)) :
    (stripBaseModelKeys d).any (fun kv => strStarts kv.1 "model.model.") =
      specNestedDetected d := by
  simp only [stripBaseModelKeys, specNestedDetected, List.any_map]
  rfl

lemma stripBase_eq_map (d : List (String × Tensor)) :
    stripBaseModelKeys d = d.map (fun kv => (specStripBase kv.1, kv.2)) := rfl

lemma finalize_embed_rows (d : String) (dt : Dtype) (u : Bool) (tm : Tokenizer × HFModel) :
    (finalize d dt u tm).model.embed_rows = (finalize d dt u tm).tokenizer.vocab := rfl

lemma finalize_config (d : String) (dt : Dtype) (u : Bool) (tm : Tokenizer × HFModel) :
    (finalize d dt u tm).model.config = tm.2.config := rfl

/- ------------------------------------------------------------------ -/
/- Claim theorems                                                      -/
/- ------------------------------------------------------------------ -/

/-- C1, counterexample: with `load_8bit=True` and `load_4bit=True` together,
the built kwargs bundle carries only the 8-bit flag and no 4-bit
quantization configuration, so 4-bit does not take precedence. -/
theorem kwargs_8bit_precedence_cex :
    (buildKwargs "llava-v1.5-7b" true true "auto").quantization_config = none ∧
    (buildKwargs "llava-v1.5-7b" true true "auto").load_in_4bit = none ∧
    (buildKwargs "llava-v1.5-7b" true true "auto").load_in_8bit = some true := by
  refine ⟨?_, ?_, ?_⟩ <;> decide

/-- C1, amended: 8-bit takes precedence over 4-bit.  Whenever
`load_8bit=True` the bundle contains only the 8-bit flag besides the device
map; whenever `load_4bit=True` and `load_8bit=False` it contains the 4-bit
flag and a quantization configuration with double quantization enabled and
quant type `nf4`. -/
theorem kwargs_quant_construction (name dm : String) (b8 b4 : Bool) :
    (b8 = true →
        buildKwargs name b8 b4 dm =
          { device_map := dm, load_in_8bit := some true, load_in_4bit := none,
            quantization_config := none, torch_dtype := none }) ∧
    (b8 = false → b4 = true →
        buildKwargs name b8 b4 dm =
          { device_map := dm, load_in_8bit := none, load_in_4bit := some true,
            quantization_config := some
              { load_in_4bit := true, bnb_4bit_compute_dtype := selectDtype name,
                bnb_4bit_use_double_quant := true, bnb_4bit_quant_type := "nf4" },
            torch_dtype := none }) := by
  constructor
  · intro h; simp [buildKwargs, h]
  · intro h1 h2; simp [buildKwargs, h1, h2]

/-- C1 witness: the amended statement evaluated at concrete flags. -/
theorem kwargs_quant_construction_wit :
    buildKwargs "some-model" true true "auto" =
      { device_map := "auto", load_in_8bit := some true, load_in_4bit := none,
        quantization_config := none, torch_dtype := none } ∧
    buildKwargs "some-model" false true "auto" =
      { device_map := "auto", load_in_8bit := none, load_in_4bit := some true,
        quantization_config := some
          { load_in_4bit := true, bnb_4bit_compute_dtype := Dtype.float16,
            bnb_4bit_use_double_quant := true, bnb_4bit_quant_type := "nf4" },
        torch_dtype := none } :=
  ⟨(kwargs_quant_construction "some-model" "auto" true true).1 rfl,
   (kwargs_quant_construction "some-model" "auto" false true).2 rfl rfl⟩

/-- C2, counterexample: a CLIP-T5-family LoRA name with `model_base=None`
fails with a key-lookup error on the fixed table, not with
`NotImplementedError`, so the invocation does not raise an
unimplemented-operation error regardless of the other arguments. -/
theorem t5_lora_keyerror_cex :
    (load_pretrained_model sampleEnv t5LoraArgs).result =
      .raised (.keyError "clip-flant5-lora") ∧
    PyError.keyError "clip-flant5-lora" ≠ PyError.notImplemented := by
  constructor
  · decide
  · decide

/-- C2, amended: for a CLIP-T5-family name (contains `clip-t5` or
`clip-flant5`, not `llava`) containing `lora`: with `model_base` supplied the
invocation raises `NotImplementedError` immediately; with `model_base=None`
it emits the missing-base warning and then fails with a key-lookup error on
the fixed table. -/
theorem t5_lora_outcomes (env : Env) (a : Args)
    (hT5 : useT5Name a.model_name = true) (hLl : isLlavaName a.model_name = false)
    (hLora : isLoraName a.model_name = true) :
    (∀ b, a.model_base = some b →
        load_pretrained_model env a =
          { warnings := [], effects := [], result := .raised .notImplemented }) ∧
    (a.model_base = none →
        load_pretrained_model env a =
          { warnings := [loraWarningMsg], effects := [],
            result := .raised (.keyError a.model_name) }) := by
  constructor
  · intro b hb
    simp [load_pretrained_model, dispatch, hT5, hLl, hb, PyResult.map]
  · intro hb
    simp [load_pretrained_model, dispatch, clipT5NoBasePath, hT5, hLl, hLora, hb,
      clipT5Find_of_lora hLora, PyResult.map]

/-- C2 witness: the amended statement at a concrete LoRA invocation. -/
theorem t5_lora_outcomes_wit :
    load_pretrained_model sampleEnv t5LoraArgs =
      { warnings := [loraWarningMsg], effects := [],
        result := .raised (.keyError "clip-flant5-lora") } :=
  (t5_lora_outcomes sampleEnv t5LoraArgs (by decide) (by decide) (by decide)).2 rfl

/-- C3: a model name containing neither `llava` nor `clip-t5`/`clip-flant5`
(case-insensitively) and absent from the fixed CLIP-T5 table makes the
invocation fail with `NotImplementedError`. -/
theorem unrecognized_name_raises (env : Env) (a : Args)
    (h1 : isLlavaName a.model_name = false) (h2 : useT5Name a.model_name = false)
    (_h3 : clipT5Find a.model_name = none) :
    load_pretrained_model env a =
      { warnings := [], effects := [], result := .raised .notImplemented } := by
  simp [load_pretrained_model, dispatch, h1, h2, PyResult.map]

/-- C3 witness: the unrecognized name `gpt2`. -/
theorem unrecognized_name_raises_wit :
    load_pretrained_model sampleEnv gpt2Args =
      { warnings := [], effects := [], result := .raised .notImplemented } :=
  unrecognized_name_raises sampleEnv gpt2Args (by decide) (by decide) (by decide)

/-- C4: a CLIP-T5-family name (contains the family marker, not `llava`)
without `lora` but with a non-None `model_base` makes the invocation fail
with `NotImplementedError`. -/
theorem t5_with_base_raises (env : Env) (a : Args) (b : String)
    (hT5 : useT5Name a.model_name = true) (hLl : isLlavaName a.model_name = false)
    (hLora : isLoraName a.model_name = false) (hb : a.model_base = some b) :
    load_pretrained_model env a =
      { warnings := [], effects := [], result := .raised .notImplemented } := by
  simp [load_pretrained_model, dispatch, hT5, hLl, hLora, hb, PyResult.map]

/-- C4 witness: `clip-flant5-xxl` with its FlanT5 base supplied. -/
theorem t5_with_base_raises_wit :
    load_pretrained_model sampleEnv t5WithBaseArgs =
      { warnings := [], effects := [], result := .raised .notImplemented } :=
  t5_with_base_raises sampleEnv t5WithBaseArgs "google/flan-t5-xxl"
    (by decide) (by decide) (by decide) rfl

/-- C5: every invocation that returns does so with the model's
token-embedding table resized to exactly the returned tokenizer's vocabulary
size. -/
theorem returned_embed_rows_eq_vocab (env : Env) (a : Args) (r : LoadResult)
    (h : (load_pretrained_model env a).result = PyResult.ok r) :
    r.model.embed_rows = r.tokenizer.vocab := by
  simp only [load_pretrained_model] at h
  cases hd : (dispatch env a (buildKwargs a.model_name a.load_8bit a.load_4bit a.device_map)).2.2 with
  | ok tm =>
    rw [hd] at h
    simp only [PyResult.map] at h
    injection h with h'
    subst h'
    exact finalize_embed_rows _ _ _ _
  | raised e =>
    rw [hd] at h
    simp only [PyResult.map] at h
    exact PyResult.noConfusion h

/-- C5 witness: a self-contained LLaVA invocation returns, and its embedding
row count equals its tokenizer's vocabulary size. -/
theorem returned_embed_rows_eq_vocab_wit :
    (load_pretrained_model sampleEnv llavaArgs).result = PyResult.ok llavaRun ∧
    llavaRun.model.embed_rows = llavaRun.tokenizer.vocab :=
  ⟨by decide, returned_embed_rows_eq_vocab sampleEnv llavaArgs llavaRun (by decide)⟩

/-- C6: the `non_lora_trainables` renaming equals the per-key map described
by the spec: strip `base_model.` if present, then, exactly when some
resulting key starts with `model.model.`, also strip `model.` from every key
that starts with it; keys without the prefixes are unchanged. -/
theorem rename_non_lora_keys (d : List (String × Tensor)) :
    renameNonLoraTrainables d =
      d.map (fun kv => (specRenamedKey (specNestedDetected d) kv.1, kv.2)) := by
  unfold renameNonLoraTrainables stripNestedModelKeys
  rw [stripBase_any_eq]
  cases hn : specNestedDetected d with
  | true =>
    rw [if_pos rfl, stripBase_eq_map, List.map_map]
    rfl
  | false =>
    rw [if_neg (by simp), stripBase_eq_map]
    rfl

/-- C7, counterexample: the name `lora` contains `lora` and `model_base` is
None, yet no warning is emitted — the unrecognized-family branch raises
`NotImplementedError` directly. -/
theorem bare_lora_no_warning_cex :
    (load_pretrained_model sampleEnv bareLoraArgs).warnings = [] ∧
    (load_pretrained_model sampleEnv bareLoraArgs).result = .raised .notImplemented := by
  constructor
  · decide
  · decide

/-- C7, amended: for an invocation whose name contains `lora`, belongs to
the LLaVA or CLIP-T5 family, and has `model_base=None`, the missing-base
warning is emitted and execution proceeds past it into the subsequent
loading logic (the self-contained LLaVA path, respectively the CLIP-T5 table
lookup, which then fails with a key-lookup error). -/
theorem lora_without_base_warns (env : Env) (a : Args)
    (hLora : isLoraName a.model_name = true) (hb : a.model_base = none)
    (hFam : isLlavaName a.model_name = true ∨ useT5Name a.model_name = true) :
    (load_pretrained_model env a).warnings = [loraWarningMsg] ∧
    (isLlavaName a.model_name = true →
        (load_pretrained_model env a).result =
          .ok (finalize a.device (selectDtype a.model_name) (useT5Name a.model_name)
            (llavaNoBasePath env a
              (buildKwargs a.model_name a.load_8bit a.load_4bit a.device_map)).2)) ∧
    (isLlavaName a.model_name = false →
        (load_pretrained_model env a).result = .raised (.keyError a.model_name)) := by
  cases hLl : isLlavaName a.model_name with
  | true =>
    refine ⟨?_, fun _ => ?_, fun hc => by simp at hc ⊢⟩
    · simp [load_pretrained_model, dispatch, hLl, hLora, hb]
    · simp [load_pretrained_model, dispatch, hLl, hLora, hb, PyResult.map]
  | false =>
    have hT5 : useT5Name a.model_name = true := by
      rcases hFam with h | h
      · rw [hLl] at h; exact absurd h (by simp)
      · exact h
    refine ⟨?_, fun hc => absurd hc (by simp), fun _ => ?_⟩
    · simp [load_pretrained_model, dispatch, hLl, hT5, hLora, hb]
    · simp [load_pretrained_model, dispatch, clipT5NoBasePath, hLl, hT5, hLora, hb,
        clipT5Find_of_lora hLora, PyResult.map]

/-- C7 witness: a LLaVA LoRA invocation without a base model warns. -/
theorem lora_without_base_warns_wit :
    (load_pretrained_model sampleEnv llavaLoraNoBaseArgs).warnings = [loraWarningMsg] :=
  (lora_without_base_warns sampleEnv llavaLoraNoBaseArgs (by decide) rfl
    (Or.inl (by decide))).1

/-- C8: every invocation that returns reports a context length equal to the
model configuration's `max_sequence_length` when that attribute is present,
and exactly 2048 when it is absent. -/
theorem returned_context_len (env : Env) (a : Args) (r : LoadResult)
    (h : (load_pretrained_model env a).result = PyResult.ok r) :
    (r.model.config.max_sequence_length = none → r.context_len = 2048) ∧
    (∀ n, r.model.config.max_sequence_length = some n → r.context_len = n) := by
  simp only [load_pretrained_model] at h
  cases hd : (dispatch env a (buildKwargs a.model_name a.load_8bit a.load_4bit a.device_map)).2.2 with
  | ok tm =>
    rw [hd] at h
    simp only [PyResult.map] at h
    injection h with h'
    subst h'
    constructor
    · intro hn
      have hn' : tm.2.config.max_sequence_length = none := hn
      show (match tm.2.config.max_sequence_length with | some n => n | none => 2048) = 2048
      rw [hn']
    · intro n hn
      have hn' : tm.2.config.max_sequence_length = some n := hn
      show (match tm.2.config.max_sequence_length with | some n => n | none => 2048) = n
      rw [hn']
  | raised e =>
    rw [hd] at h
    simp only [PyResult.map] at h
    exact PyResult.noConfusion h

/-- C8 witness: a returning invocation whose configuration lacks the
attribute reports context length 2048. -/
theorem returned_context_len_wit :
    llavaRunB.model.config.max_sequence_length = none ∧ llavaRunB.context_len = 2048 :=
  ⟨by decide, (returned_context_len sampleEnv llavaArgsB llavaRunB (by decide)).1 (by decide)⟩

/-- C9: for a stage-1 table entry (`load_projector_only=True`) with
`model_base=None`, the invocation always fails with an unresolved-local-name
error on `hf_hub_download`, so this branch can never complete. -/
theorem stage1_unbound_local (env : Env) (a : Args) (e : ClipT5Entry)
    (hf : clipT5Find a.model_name = some e) (hp : e.load_projector_only = true)
    (hb : a.model_base = none) :
    (load_pretrained_model env a).result = .raised (.unboundLocal "hf_hub_download") := by
  rcases clipT5Find_name_props hf with ⟨hT5, hLl, hLora⟩
  simp [load_pretrained_model, dispatch, clipT5NoBasePath, hT5, hLl, hLora, hb, hf, hp,
    PyResult.map]

/-- C9 witness: the `clip-flant5-xxl-stage-1` entry. -/
theorem stage1_unbound_local_wit :
    (load_pretrained_model sampleEnv t5Stage1Args).result =
      .raised (.unboundLocal "hf_hub_download") :=
  stage1_unbound_local sampleEnv t5Stage1Args
    { base := "google/flan-t5-xxl", model := "zhiqiulin/clip-flant5-xxl-stage-1",
      load_projector_only := true }
    (by decide) rfl rfl

/-- C10: in the CLIP-T5 path (name in the fixed table, `model_base=None`,
hence no `lora` and no `llava`), the whole observable outcome — warnings,
effects and the returned tuple or exception — is independent of the
`load_8bit`, `load_4bit` and `device_map` arguments. -/
theorem clipT5_quant_noninterference (env : Env) (p name dev : String) (e : ClipT5Entry)
    (b8 b4 b8' b4' : Bool) (dm dm' : String)
    (hf : clipT5Find name = some e) :
    load_pretrained_model env
      { model_path := p, model_base := none, model_name := name, load_8bit := b8,
        load_4bit := b4, device_map := dm, device := dev } =
    load_pretrained_model env
      { model_path := p, model_base := none, model_name := name, load_8bit := b8',
        load_4bit := b4', device_map := dm', device := dev } := by
  rcases clipT5Find_name_props hf with ⟨hT5, hLl, hLora⟩
  simp [load_pretrained_model, dispatch, clipT5NoBasePath, hT5, hLl, hLora, hf, PyResult.map]

/-- C10 witness: 8-bit/auto versus 4-bit/balanced on `clip-flant5-xxl`. -/
theorem clipT5_quant_noninterference_wit :
    load_pretrained_model sampleEnv t5QuantArgsA =
      load_pretrained_model sampleEnv t5QuantArgsB :=
  clipT5_quant_noninterference sampleEnv "m" "clip-flant5-xxl" "cuda"
    { base := "google/flan-t5-xxl", model := "zhiqiulin/clip-flant5-xxl",
      load_projector_only := false }
    true false false true "auto" "balanced" (by decide)

end ClipFlanT5
